import Mathlib

/-!
Verification of the telRem doorbell firmware core against its design
specification.

The embedding below is a shallow model of the C sources:

* `src/unnamed/part_002` (the live `video_manager.c`, matching the header
  `src/esp32_firmware/main/video/video_manager.h`) and `src/unnamed/part_001`
  (an older revision of the same file, kept in the repository);
* `src/esp32_firmware/main/control/device_manager.h` (header plus the
  session-coordinator implementation);
* `src/esp32_firmware/main/audio/audio_pipeline_manager.c`;
* `src/adf_components/udp_stream.c`.

External calls (FreeRTOS, lwIP sockets, ESP-ADF, camera driver) are modelled
by explicit outcome parameters: each call that can fail or return data takes
its result as an argument, and the state the C code keeps in globals is
threaded explicitly.
-/

namespace TelRem

/-- `esp_err_t` values used by the modelled code. -/
inductive EspErr
  | ok
  | fail
  | invalidArg
  | invalidState
deriving DecidableEq, Repr

/-! ## Video manager: packet framing constants and fragmentation
(`src/unnamed/part_002`, constants from
`src/esp32_firmware/main/video/video_manager.h`) -/

/-- `#define VIDEO_STREAM_HEADER_LEN 19` -/
def VIDEO_STREAM_HEADER_LEN : Nat := 19

/-- `#define MAX_VIDEO_PACKET_SIZE 1400` (MTU-safe packet size) -/
def MAX_VIDEO_PACKET_SIZE : Nat := 1400

/-- `#define MAX_VIDEO_DATA_SIZE (MAX_VIDEO_PACKET_SIZE - VIDEO_STREAM_HEADER_LEN)` -/
def MAX_VIDEO_DATA_SIZE : Nat := MAX_VIDEO_PACKET_SIZE - VIDEO_STREAM_HEADER_LEN

/-- One 19-byte video packet header as written by `_video_manager_send_frame`
(`src/unnamed/part_002`, lines 304-315).  The 32-bit and 16-bit fields are
modelled as `Nat` reduced modulo the field width at the point where the C
code stores them into the fixed-width header slots. -/
structure VideoHeader where
  ptype : Nat
  frame_id : Nat
  timestamp_ms : Int
  packet_length : Nat
  packet_seq : Nat
  total_packets : Nat
deriving DecidableEq, Repr

/-- `total_packets = (fb->len + MAX_VIDEO_DATA_SIZE - 1) / MAX_VIDEO_DATA_SIZE`
(`src/unnamed/part_002`, line 292). -/
def total_packets_of (flen : Nat) : Nat :=
  (flen + MAX_VIDEO_DATA_SIZE - 1) / MAX_VIDEO_DATA_SIZE

/-- `packet_data_size = (offset + MAX_VIDEO_DATA_SIZE > fb->len) ?
(fb->len - offset) : MAX_VIDEO_DATA_SIZE` with
`offset = packet_seq * MAX_VIDEO_DATA_SIZE` (`src/unnamed/part_002`,
lines 300-302). -/
def packet_data_size (flen seq : Nat) : Nat :=
  if seq * MAX_VIDEO_DATA_SIZE + MAX_VIDEO_DATA_SIZE > flen then
    flen - seq * MAX_VIDEO_DATA_SIZE
  else
    MAX_VIDEO_DATA_SIZE

/-- The sequence of headers written by the fragment loop of
`_video_manager_send_frame` (`src/unnamed/part_002`, lines 299-315) for a
frame of `flen` bytes: one header per `packet_seq` in
`0..total_packets-1`, each carrying the same `current_frame_id` (stored as a
4-byte field), the same capture `time_ms`, the 16-bit truncated fragment
length, the 16-bit truncated `packet_seq`, and the 16-bit truncated
`total_packets_16`. -/
def frame_packet_headers (flen frame_id : Nat) (time_ms : Int) : List VideoHeader :=
  (List.range (total_packets_of flen)).map fun seq =>
    { ptype := 1
      frame_id := frame_id % 2 ^ 32
      timestamp_ms := time_ms
      packet_length := packet_data_size flen seq % 2 ^ 16
      packet_seq := seq % 2 ^ 16
      total_packets := total_packets_of flen % 2 ^ 16 }

lemma total_packets_of_pos_form (F : Nat) (hF : 0 < F) :
    total_packets_of F = (F - 1) / MAX_VIDEO_DATA_SIZE + 1 := by
  unfold total_packets_of
  have h1 : F + MAX_VIDEO_DATA_SIZE - 1 = (F - 1) + MAX_VIDEO_DATA_SIZE := by
    omega
  rw [h1, Nat.add_div_right]
  decide

/-- C6: for a captured frame of `F > 0` bytes whose fragment count fits the
16-bit wire field, the streamer emits exactly `ceil(F / C)` fragments
(`C = MAX_VIDEO_DATA_SIZE = 1400 - 19`), their fragment-seq values are
`0, 1, ..., total-1` in order (strictly increasing), and every fragment of
the frame carries the same total-fragments value, the same frame id and the
same capture timestamp. -/
theorem video_frame_fragmentation (F fid : Nat) (t : Int)
    (hF : 0 < F)
    (hfrag : total_packets_of F < 2 ^ 16)
    (hfid : fid < 2 ^ 32) :
    (frame_packet_headers F fid t).length = (F + MAX_VIDEO_DATA_SIZE - 1) / MAX_VIDEO_DATA_SIZE ∧
    MAX_VIDEO_DATA_SIZE * ((frame_packet_headers F fid t).length - 1) < F ∧
    F ≤ MAX_VIDEO_DATA_SIZE * (frame_packet_headers F fid t).length ∧
    (frame_packet_headers F fid t).map VideoHeader.packet_seq =
      List.range (frame_packet_headers F fid t).length ∧
    ∀ h ∈ frame_packet_headers F fid t,
      h.total_packets = (frame_packet_headers F fid t).length ∧
      h.frame_id = fid ∧ h.timestamp_ms = t := by
  have hC : 0 < MAX_VIDEO_DATA_SIZE := by decide
  have hlen : (frame_packet_headers F fid t).length = total_packets_of F := by
    simp [frame_packet_headers]
  have hform := total_packets_of_pos_form F hF
  refine ⟨by rw [hlen]; rfl, ?_, ?_, ?_, ?_⟩
  · rw [hlen, hform]
    simp only [Nat.add_sub_cancel]
    have h1 := Nat.div_mul_le_self (F - 1) MAX_VIDEO_DATA_SIZE
    have h2 : MAX_VIDEO_DATA_SIZE * ((F - 1) / MAX_VIDEO_DATA_SIZE) =
        (F - 1) / MAX_VIDEO_DATA_SIZE * MAX_VIDEO_DATA_SIZE := Nat.mul_comm _ _
    omega
  · rw [hlen, hform]
    have hdiv : (F - 1) / MAX_VIDEO_DATA_SIZE <
        (F - 1) / MAX_VIDEO_DATA_SIZE + 1 := Nat.lt_succ_self _
    have h1 := (Nat.div_lt_iff_lt_mul hC).mp hdiv
    have h2 : MAX_VIDEO_DATA_SIZE * ((F - 1) / MAX_VIDEO_DATA_SIZE + 1) =
        ((F - 1) / MAX_VIDEO_DATA_SIZE + 1) * MAX_VIDEO_DATA_SIZE := Nat.mul_comm _ _
    omega
  · rw [hlen]
    unfold frame_packet_headers
    rw [List.map_map]
    have : ∀ s ∈ List.range (total_packets_of F),
        (VideoHeader.packet_seq ∘ fun seq =>
          ({ ptype := 1
             frame_id := fid % 2 ^ 32
             timestamp_ms := t
             packet_length := packet_data_size F seq % 2 ^ 16
             packet_seq := seq % 2 ^ 16
             total_packets := total_packets_of F % 2 ^ 16 } : VideoHeader)) s = id s := by
      intro s hs
      simp only [Function.comp_apply, id_eq]
      exact Nat.mod_eq_of_lt (lt_trans (List.mem_range.mp hs) hfrag)
    rw [List.map_congr_left this, List.map_id]
  · intro h hh
    rw [hlen]
    unfold frame_packet_headers at hh
    rcases List.mem_map.mp hh with ⟨s, _, rfl⟩
    refine ⟨Nat.mod_eq_of_lt hfrag, Nat.mod_eq_of_lt hfid, rfl⟩

/-- Concrete instantiation of `video_frame_fragmentation`: a 3000-byte frame
is sent as 3 fragments with seq values 0, 1, 2. -/
theorem video_frame_fragmentation_witness :
    (frame_packet_headers 3000 5 77).length = (3000 + MAX_VIDEO_DATA_SIZE - 1) / MAX_VIDEO_DATA_SIZE ∧
    MAX_VIDEO_DATA_SIZE * ((frame_packet_headers 3000 5 77).length - 1) < 3000 ∧
    3000 ≤ MAX_VIDEO_DATA_SIZE * (frame_packet_headers 3000 5 77).length ∧
    (frame_packet_headers 3000 5 77).map VideoHeader.packet_seq =
      List.range (frame_packet_headers 3000 5 77).length ∧
    ∀ h ∈ frame_packet_headers 3000 5 77,
      h.total_packets = (frame_packet_headers 3000 5 77).length ∧
      h.frame_id = 5 ∧ h.timestamp_ms = 77 :=
  video_frame_fragmentation 3000 5 77 (by decide) (by decide) (by decide)

/-! ## Video manager: streaming state machine (`src/unnamed/part_002`) -/

/-- The mutable fields of `video_manager_info_t` relevant to the streaming
lifecycle (`src/unnamed/part_002`, lines 36-43), plus whether the UDP socket
is currently allocated (`udp_socket >= 0`). -/
structure VideoState where
  is_streaming : Bool
  stop_requested : Bool
  udp_socket_open : Bool
  remote_addr : Nat
  frame_id : Nat
deriving DecidableEq, Repr

/-- Video-manager state after `video_manager_init`
(`src/unnamed/part_002`, lines 131-136). -/
def video_init_state : VideoState :=
  { is_streaming := false
    stop_requested := false
    udp_socket_open := false
    remote_addr := 0
    frame_id := 0 }

/-- The write `video_info.stop_requested = true` performed by
`video_manager_stop_streaming` before it starts polling
(`src/unnamed/part_002`, line 253). -/
def video_stop_request (v : VideoState) : VideoState :=
  { v with stop_requested := true }

/-- What the streaming task does once it observes `stop_requested` and leaves
its loop: clear `is_streaming` and close the UDP socket
(`src/unnamed/part_002`, lines 173-179). -/
def video_task_exit (v : VideoState) : VideoState :=
  { v with is_streaming := false, udp_socket_open := false }

/-- The polling loop of `video_manager_stop_streaming`
(`src/unnamed/part_002`, lines 258-263): `while (thread_running) { ... }`
where each iteration re-reads `video_info.is_streaming`.  `obs i` is the
value of `is_streaming` read at the `i`-th poll; `stop_wait_finishes obs n`
says whether the loop has exited within the first `n` polls.  The loop body
contains no retry bound and no forced-stop fallback. -/
def stop_wait_finishes (obs : Nat → Bool) : Nat → Bool
  | 0 => false
  | n + 1 => if obs 0 then stop_wait_finishes (fun i => obs (i + 1)) n else true

lemma stop_wait_finishes_of_obs_false (obs : Nat → Bool) (k : Nat) (h : obs k = false) :
    stop_wait_finishes obs (k + 1) = true := by
  induction k generalizing obs with
  | zero => simp [stop_wait_finishes, h]
  | succ k ih =>
      by_cases h0 : obs 0
      · simpa [stop_wait_finishes, h0] using ih (fun i => obs (i + 1)) h
      · simp [stop_wait_finishes, h0]

/-- C3 counterexample: if the streaming task is stuck (e.g. blocked inside a
camera call) and never clears `is_streaming`, the wait loop of
`video_manager_stop_streaming` never finishes — there is no bounded number
of retries after which a forced-stop fallback runs, so the call does not
always terminate. -/
theorem video_stop_unbounded_counterexample :
    ¬ ∃ n, stop_wait_finishes (fun _ => true) n = true := by
  rintro ⟨n, hn⟩
  have : ∀ m, stop_wait_finishes (fun _ => true) m = false := by
    intro m
    induction m with
    | zero => rfl
    | succ m ih => simpa [stop_wait_finishes] using ih
  rw [this n] at hn
  exact Bool.false_ne_true hn

/-- C3 amended: `video_manager_stop_streaming` sets `stop_requested` and then
waits, with no retry bound and no forced-stop fallback, until the streaming
task clears the streaming flag; the wait finishes (at the first poll after
the task exits) whenever the task does observe the flag, and the task closes
the UDP socket and clears `is_streaming` on its way out. -/
theorem video_stop_waits_for_task_exit (obs : Nat → Bool) (k : Nat) (v : VideoState)
    (h : obs k = false) :
    stop_wait_finishes obs (k + 1) = true ∧
    (video_stop_request v).stop_requested = true ∧
    (video_task_exit v).is_streaming = false ∧
    (video_task_exit v).udp_socket_open = false := by
  exact ⟨stop_wait_finishes_of_obs_false obs k h, rfl, rfl, rfl⟩

/-- Concrete instantiation of `video_stop_waits_for_task_exit`: the task
exits at the first poll. -/
theorem video_stop_waits_for_task_exit_witness :
    stop_wait_finishes (fun _ => false) (0 + 1) = true ∧
    (video_stop_request video_init_state).stop_requested = true ∧
    (video_task_exit video_init_state).is_streaming = false ∧
    (video_task_exit video_init_state).udp_socket_open = false :=
  video_stop_waits_for_task_exit (fun _ => false) 0 video_init_state rfl

/-! ## Video manager: per-tick frame capture and send
(`src/unnamed/part_002` lines 268-355; older revision `src/unnamed/part_001`
lines 342-413) -/

/-- Result of `esp_camera_fb_get()`: either a frame buffer of `len` bytes or
`NULL`. -/
inductive CaptureResult
  | frame (len : Nat)
  | null
deriving DecidableEq, Repr

/-- Outcome of one send-frame call.  `nullDeref` marks the path where the C
code reads `fb->len` from a `NULL` frame pointer (undefined behaviour, a
crash on this target). -/
inductive SendFrameOutcome
  | ok
  | espFail
  | invalidState
  | nullDeref
deriving DecidableEq, Repr

/-- `_video_manager_send_frame` of the live video manager
(`src/unnamed/part_002`, lines 268-355), at the granularity of one tick:
if `is_streaming` is false it returns `ESP_ERR_INVALID_STATE`; then it calls
`esp_camera_fb_get()` and immediately computes
`(fb->len + MAX_VIDEO_DATA_SIZE - 1) / MAX_VIDEO_DATA_SIZE` **without any
NULL check**, so a failed capture dereferences a null pointer; with a valid
frame it runs the fragment loop, aborting with `ESP_FAIL` on the first
failed `sendmsg` (`send_ok seq` gives each fragment send's outcome). -/
def send_frame_live (is_streaming : Bool) (cap : CaptureResult)
    (send_ok : Nat → Bool) : SendFrameOutcome :=
  if ¬ is_streaming then .invalidState
  else
    match cap with
    | .null => .nullDeref
    | .frame flen =>
        if (List.range (total_packets_of flen)).all send_ok then .ok else .espFail

/-- `video_manager_send_frame` of the older revision
(`src/unnamed/part_001`, lines 342-413): identical shape, except that a
`NULL` frame buffer is checked (`if (!fb) { ... return ESP_FAIL; }`), logged
and the tick is skipped. -/
def send_frame_old (is_streaming : Bool) (cap : CaptureResult)
    (send_ok : Nat → Bool) : SendFrameOutcome :=
  if ¬ is_streaming then .invalidState
  else
    match cap with
    | .null => .espFail
    | .frame flen =>
        if (List.range (total_packets_of flen)).all send_ok then .ok else .espFail

/-- C4: on a tick where the camera returns no frame buffer, the live
`_video_manager_send_frame` reaches the null-dereference path (it reads
`fb->len` with `fb = NULL`) instead of logging and skipping the tick; the
older revision of the same function returned `ESP_FAIL` and skipped the
tick, which is also what the specification describes. -/
theorem camera_null_capture_dereferenced :
    send_frame_live true .null (fun _ => true) = .nullDeref ∧
    send_frame_old true .null (fun _ => true) = .espFail ∧
    send_frame_live true .null (fun _ => true) ≠ .espFail := by
  refine ⟨rfl, rfl, ?_⟩
  decide

/-! ## Audio pipeline manager
(`src/esp32_firmware/main/audio/audio_pipeline_manager.c`) -/

/-- Allocation state of the fields of `struct audio_pipeline_manager_info`:
`true` means the handle is non-`NULL` (the ADF object is allocated).
`remote_addr` is the bound client address. -/
structure AudioPipelinesInfo where
  pipeline_send : Bool
  i2s_reader : Bool
  udp_writer : Bool
  pipeline_recv : Bool
  udp_reader : Bool
  i2s_writer : Bool
  remote_addr : Nat
deriving DecidableEq, Repr

/-- The all-`NULL` info produced by `memset(&audio_info, 0, ...)`
(`src/esp32_firmware/main/control/device_manager.h`, line 190). -/
def audio_info_zero : AudioPipelinesInfo :=
  { pipeline_send := false
    i2s_reader := false
    udp_writer := false
    pipeline_recv := false
    udp_reader := false
    i2s_writer := false
    remote_addr := 0 }

/-- Success/failure of each external allocation performed by
`audio_pipelines_init`, in source order. -/
structure AudioInitEnv where
  pipeline_send_ok : Bool
  i2s_reader_ok : Bool
  udp_writer_ok : Bool
  pipeline_recv_ok : Bool
  udp_reader_ok : Bool
  i2s_writer_ok : Bool
deriving DecidableEq, Repr

/-- `audio_pipelines_init`
(`src/esp32_firmware/main/audio/audio_pipeline_manager.c`, lines 17-120):
allocates, in order, the send pipeline, the I2S reader, the UDP writer, the
receive pipeline, the UDP reader and the I2S writer; each failed allocation
makes the function return `ESP_FAIL` immediately, keeping every handle
allocated so far (there is no teardown on these early-return paths). -/
def audio_pipelines_init (env : AudioInitEnv) (info : AudioPipelinesInfo) :
    AudioPipelinesInfo × EspErr :=
  let info := { info with pipeline_send := env.pipeline_send_ok }
  if ¬ env.pipeline_send_ok then (info, .fail)
  else
    let info := { info with i2s_reader := env.i2s_reader_ok }
    if ¬ env.i2s_reader_ok then (info, .fail)
    else
      let info := { info with udp_writer := env.udp_writer_ok }
      if ¬ env.udp_writer_ok then (info, .fail)
      else
        let info := { info with pipeline_recv := env.pipeline_recv_ok }
        if ¬ env.pipeline_recv_ok then (info, .fail)
        else
          let info := { info with udp_reader := env.udp_reader_ok }
          if ¬ env.udp_reader_ok then (info, .fail)
          else
            let info := { info with i2s_writer := env.i2s_writer_ok }
            if ¬ env.i2s_writer_ok then (info, .fail)
            else (info, .ok)

/-- `audio_pipeline_cleanup`
(`src/esp32_firmware/main/audio/audio_pipeline_manager.c`, lines 122-177):
terminates both pipelines, unregisters their elements, deinitializes the
pipelines, nulls the pipeline handles and resets `remote_addr`.  The
external ADF terminate/unregister/deinit calls are modelled as releasing
the pipelines and the elements they carried. -/
def audio_pipeline_cleanup (_info : AudioPipelinesInfo) : AudioPipelinesInfo :=
  audio_info_zero

/-- Outcome of `video_manager_start_streaming`'s two external calls:
socket creation (`src/unnamed/part_002`, line 197) and task creation
(line 221). -/
inductive VideoStartEnv
  | socketFail
  | taskFail
  | startOk
deriving DecidableEq, Repr

/-- `video_manager_start_streaming` (`src/unnamed/part_002`, lines 186-242):
no-op success when already streaming; on socket failure, returns `ESP_FAIL`
with the state unchanged; on task-creation failure, the just-created socket
is closed and `is_streaming` is cleared again before `ESP_FAIL`; on success
the state is streaming with an open socket bound to `client_ip`. -/
def video_manager_start_streaming (env : VideoStartEnv) (client_ip : Nat)
    (v : VideoState) : VideoState × EspErr :=
  if v.is_streaming then (v, .ok)
  else
    match env with
    | .socketFail => (v, .fail)
    | .taskFail =>
        ({ v with is_streaming := false
                  stop_requested := false
                  udp_socket_open := false
                  remote_addr := client_ip }, .fail)
    | .startOk =>
        ({ v with is_streaming := true
                  stop_requested := false
                  udp_socket_open := true
                  remote_addr := client_ip }, .ok)

/-- `video_manager_stop_streaming` (`src/unnamed/part_002`, lines 244-266)
as a state transformer, taking the post-wait state: no-op when idle,
otherwise `stop_requested` is set and — once the streaming task has observed
it and exited (lines 173-179) — the streaming flag is cleared and the socket
closed.  Termination of the wait itself is the subject of
`stop_wait_finishes`. -/
def video_manager_stop_streaming_final (v : VideoState) : VideoState :=
  if ¬ v.is_streaming then v
  else
    { v with stop_requested := true
             is_streaming := false
             udp_socket_open := false }

/-- The media-session state driven by the coordinator: the audio pipelines
info with a flag for `audio_pipeline_run` having started both pipelines, and
the video manager state. -/
structure MediaState where
  audio : AudioPipelinesInfo
  audio_running : Bool
  video : VideoState
deriving DecidableEq, Repr

/-- Media state at boot: zeroed audio info, nothing running, video idle. -/
def media_init : MediaState :=
  { audio := audio_info_zero
    audio_running := false
    video := video_init_state }

/-- Outcomes of the external calls made by
`_start_audio_and_video_for_client`. -/
structure StartEnv where
  audio_init : AudioInitEnv
  run_send_ok : Bool
  run_recv_ok : Bool
  video : VideoStartEnv
deriving DecidableEq, Repr

/-- The environment in which every external call succeeds. -/
def start_env_all_ok : StartEnv :=
  { audio_init :=
      { pipeline_send_ok := true
        i2s_reader_ok := true
        udp_writer_ok := true
        pipeline_recv_ok := true
        udp_reader_ok := true
        i2s_writer_ok := true }
    run_send_ok := true
    run_recv_ok := true
    video := .startOk }

/-- `_start_audio_and_video_for_client`
(`src/esp32_firmware/main/control/device_manager.h`, lines 258-302):
stores the client address into the audio info, calls
`audio_pipelines_init` (on failure: return `ESP_FAIL` **without** any
cleanup, lines 275-278), then runs both pipelines (on failure of either:
`audio_pipeline_cleanup` then `ESP_FAIL`, lines 284-288), then starts video
streaming (on failure: `audio_pipeline_cleanup` then `ESP_FAIL`,
lines 294-298). -/
def start_audio_and_video_for_client (env : StartEnv) (client_ip : Nat)
    (m : MediaState) : MediaState × EspErr :=
  let m := { m with audio := { m.audio with remote_addr := client_ip } }
  let ir := audio_pipelines_init env.audio_init m.audio
  if ir.2 ≠ .ok then ({ m with audio := ir.1 }, .fail)
  else
    let m := { m with audio := ir.1 }
    if ¬ (env.run_send_ok ∧ env.run_recv_ok) then
      ({ m with audio := audio_pipeline_cleanup m.audio, audio_running := false }, .fail)
    else
      let m := { m with audio_running := true }
      let vr := video_manager_start_streaming env.video client_ip m.video
      if vr.2 = .ok then ({ m with video := vr.1 }, .ok)
      else
        ({ m with video := vr.1
                  audio := audio_pipeline_cleanup m.audio
                  audio_running := false }, .fail)

/-- `_stop_audio_and_video`
(`src/esp32_firmware/main/control/device_manager.h`, lines 245-255):
cleans up the audio pipelines and stops video streaming. -/
def stop_audio_and_video (m : MediaState) : MediaState :=
  { audio := audio_pipeline_cleanup m.audio
    audio_running := false
    video := video_manager_stop_streaming_final m.video }

/-- C5 counterexample: if the I2S-reader allocation inside
`audio_pipelines_init` fails (second stage), `_start_audio_and_video_for_client`
reports failure while the send-pipeline handle built by the same call is
still allocated — the failed attempt is not fully torn down. -/
theorem partial_init_failure_leaks_counterexample :
    (start_audio_and_video_for_client
        { start_env_all_ok with
            audio_init := { start_env_all_ok.audio_init with i2s_reader_ok := false } }
        10 media_init).2 = .fail ∧
    (start_audio_and_video_for_client
        { start_env_all_ok with
            audio_init := { start_env_all_ok.audio_init with i2s_reader_ok := false } }
        10 media_init).1.audio.pipeline_send = true := by
  exact ⟨rfl, rfl⟩

/-- C5 amended: failures of the pipeline-run stage or of the video-streamer
start do tear down everything built for the call (audio handles cleaned,
nothing running, no video socket or task left), but a failure **inside**
`audio_pipelines_init` returns without teardown, leaving the components
already allocated by that call (e.g. the send pipeline) in place. -/
theorem media_start_failure_teardown (env : StartEnv) (ip : Nat)
    (hok : env.audio_init = start_env_all_ok.audio_init)
    (hfail : ¬ (env.run_send_ok = true ∧ env.run_recv_ok = true) ∨ env.video ≠ .startOk) :
    (start_audio_and_video_for_client env ip media_init).2 = .fail ∧
    (start_audio_and_video_for_client env ip media_init).1.audio = audio_info_zero ∧
    (start_audio_and_video_for_client env ip media_init).1.audio_running = false ∧
    (start_audio_and_video_for_client env ip media_init).1.video.is_streaming = false ∧
    (start_audio_and_video_for_client env ip media_init).1.video.udp_socket_open = false := by
  obtain ⟨ai, rs, rr, vd⟩ := env
  simp only [start_env_all_ok] at hok
  subst hok
  cases rs <;> cases rr <;> cases vd <;>
    simp_all [start_audio_and_video_for_client, audio_pipelines_init,
      video_manager_start_streaming, audio_pipeline_cleanup, media_init,
      audio_info_zero, video_init_state]

/-- Concrete instantiation of `media_start_failure_teardown`: the video
streamer's socket creation fails after both audio pipelines started. -/
theorem media_start_failure_teardown_witness :
    (start_audio_and_video_for_client { start_env_all_ok with video := .socketFail }
        10 media_init).2 = .fail ∧
    (start_audio_and_video_for_client { start_env_all_ok with video := .socketFail }
        10 media_init).1.audio = audio_info_zero ∧
    (start_audio_and_video_for_client { start_env_all_ok with video := .socketFail }
        10 media_init).1.audio_running = false ∧
    (start_audio_and_video_for_client { start_env_all_ok with video := .socketFail }
        10 media_init).1.video.is_streaming = false ∧
    (start_audio_and_video_for_client { start_env_all_ok with video := .socketFail }
        10 media_init).1.video.udp_socket_open = false :=
  media_start_failure_teardown { start_env_all_ok with video := .socketFail } 10
    (by decide) (by decide)

/-! ## Session coordinator
(`src/esp32_firmware/main/control/device_manager.h`) -/

/-- `#define INACTIVE_CLIENT_INDEX -1` — the no-talker sentinel. -/
def INACTIVE_CLIENT_INDEX : Int := -1

/-- Control replies sent to a client (values of `device_command_t` used as
responses in `_handle_client_command`). -/
inductive Reply
  | grantTalk
  | denyTalk
  | talkEnded
  | talkDidNotEnd
  | openDoorAck
deriving DecidableEq, Repr

/-- Control commands received from a client. -/
inductive Cmd
  | requestTalk
  | endTalk
  | openDoor
  | unknown (code : Int)
deriving DecidableEq, Repr

/-- The coordinator state shared across client handler tasks:
`active_talker_index` (sentinel `-1`), `audio_info.active_client_index`,
and the media-session state the coordinator drives. -/
structure DMState where
  active_talker_index : Int
  audio_active_client : Int
  media : MediaState
deriving DecidableEq, Repr

/-- Coordinator state after `device_manager_init`
(`src/esp32_firmware/main/control/device_manager.h`, lines 186-191). -/
def dm_init_state : DMState :=
  { active_talker_index := INACTIVE_CLIENT_INDEX
    audio_active_client := INACTIVE_CLIENT_INDEX
    media := media_init }

/-- `_request_talk_permission` (`device_manager.h`, lines 213-226): under the
talker mutex, grant iff `active_talker_index` is the sentinel, recording the
requester; otherwise deny without touching any state. -/
def request_talk_permission (s : DMState) (client_index : Nat) : DMState × Bool :=
  if s.active_talker_index = INACTIVE_CLIENT_INDEX then
    ({ s with active_talker_index := client_index }, true)
  else
    (s, false)

/-- `_release_talk_permission` (`device_manager.h`, lines 229-243): under the
talker mutex, release iff the caller is the recorded talker, also resetting
`audio_info.active_client_index`; otherwise report failure with no state
change. -/
def release_talk_permission (s : DMState) (client_index : Nat) : DMState × Bool :=
  if s.active_talker_index = client_index then
    ({ s with active_talker_index := INACTIVE_CLIENT_INDEX
              audio_active_client := INACTIVE_CLIENT_INDEX }, true)
  else
    (s, false)

/-- `_handle_client_command` (`device_manager.h`, lines 327-368).
`REQUEST_TALK`: if permission is granted, `GRANT_TALK` is sent and then
`_start_audio_and_video_for_client` is called with its `esp_err_t` result
**ignored** (line 334) — on media failure nothing is rolled back; otherwise
`DENY_TALK` is sent with no media call.  `END_TALK`: on release,
`TALK_ENDED` then `_stop_audio_and_video`; otherwise `TALK_DID_NOT_END`
with no state change.  `OPEN_DOOR` echoes.  Unknown commands are logged with
no reply. -/
def handle_client_command (env : StartEnv) (s : DMState) (client_index : Nat)
    (client_ip : Nat) (cmd : Cmd) : DMState × List Reply :=
  match cmd with
  | .requestTalk =>
      let rq := request_talk_permission s client_index
      if rq.2 then
        let sv := start_audio_and_video_for_client env client_ip rq.1.media
        ({ rq.1 with media := sv.1 }, [.grantTalk])
      else
        (rq.1, [.denyTalk])
  | .endTalk =>
      let rl := release_talk_permission s client_index
      if rl.2 then
        ({ rl.1 with media := stop_audio_and_video rl.1.media }, [.talkEnded])
      else
        (rl.1, [.talkDidNotEnd])
  | .openDoor => (s, [.openDoorAck])
  | .unknown _ => (s, [])

/-- `_cleanup_client` (`device_manager.h`, lines 305-324): if the client is
the active talker, stop audio and video; then release talk permission; the
socket close and slot reset concern the client table, not this state. -/
def cleanup_client (s : DMState) (client_index : Nat) : DMState :=
  let s :=
    if s.active_talker_index = client_index then
      { s with media := stop_audio_and_video s.media }
    else s
  (release_talk_permission s client_index).1

/-- One externally visible event processed by the coordinator: a command
received by a client handler task, or a client disconnect / receive error
(`_client_handler_task`, `device_manager.h`, lines 371-401). -/
inductive DMEvent
  | clientCmd (client_index : Nat) (client_ip : Nat) (cmd : Cmd) (env : StartEnv)
  | disconnect (client_index : Nat)
deriving DecidableEq, Repr

/-- One step of the coordinator. -/
def dm_step (s : DMState) : DMEvent → DMState × List Reply
  | .clientCmd i ip c env => handle_client_command env s i ip c
  | .disconnect i => (cleanup_client s i, [])

/-- Run of the coordinator over a sequence of events. -/
def dm_run (s : DMState) : List DMEvent → DMState
  | [] => s
  | e :: es => dm_run (dm_step s e).1 es

/-- A coordinator state in which client 0 holds the talk slot. -/
def dm_state_client0 : DMState :=
  { dm_init_state with active_talker_index := 0 }

/-- Environment in which the video streamer's socket creation fails, so the
Media Session start fails after both audio pipelines ran. -/
def start_env_video_fail : StartEnv :=
  { start_env_all_ok with video := .socketFail }

/-- C1 counterexample: from the initial state, client 0 sends `REQUEST_TALK`
and the Media Session start fails (video socket creation fails).  The client
is nevertheless answered `GRANT_TALK`, the arbitration state keeps client 0
recorded (it does **not** return to the no-talker sentinel, because
`_handle_client_command` ignores the result of
`_start_audio_and_video_for_client`), and a later `REQUEST_TALK` from
client 1 is denied rather than granted. -/
theorem talk_grant_not_rolled_back_counterexample :
    (dm_step dm_init_state (.clientCmd 0 10 .requestTalk start_env_video_fail)).2 =
      [Reply.grantTalk] ∧
    (dm_step dm_init_state (.clientCmd 0 10 .requestTalk start_env_video_fail)).1.active_talker_index = 0 ∧
    (dm_step (dm_step dm_init_state (.clientCmd 0 10 .requestTalk start_env_video_fail)).1
        (.clientCmd 1 10 .requestTalk start_env_all_ok)).2 = [Reply.denyTalk] := by
  decide

/-- C1 amended: when the Media Session start fails after a grant, the grant
is **not** rolled back: the requester was already sent `GRANT_TALK`, it
remains the recorded active talker, every later `REQUEST_TALK` from another
client is denied, and the slot is only freed when the holder itself sends
`END_TALK` (or disconnects). -/
theorem media_start_failure_keeps_grant (s : DMState) (i j ip ip2 ip3 : Nat)
    (env env2 env3 : StartEnv)
    (hfree : s.active_talker_index = INACTIVE_CLIENT_INDEX)
    (hfail : (start_audio_and_video_for_client env ip s.media).2 = .fail) :
    (dm_step s (.clientCmd i ip .requestTalk env)).2 = [Reply.grantTalk] ∧
    (dm_step s (.clientCmd i ip .requestTalk env)).1.active_talker_index = i ∧
    (dm_step (dm_step s (.clientCmd i ip .requestTalk env)).1
        (.clientCmd j ip2 .requestTalk env2)).2 = [Reply.denyTalk] ∧
    (dm_step (dm_step s (.clientCmd i ip .requestTalk env)).1
        (.clientCmd i ip3 .endTalk env3)).1.active_talker_index = INACTIVE_CLIENT_INDEX := by
  have hi : ((i : Int)) ≠ INACTIVE_CLIENT_INDEX := by
    have := Int.natCast_nonneg i
    simp only [INACTIVE_CLIENT_INDEX]
    omega
  refine ⟨?_, ?_, ?_, ?_⟩
  · simp [dm_step, handle_client_command, request_talk_permission, hfree]
  · simp [dm_step, handle_client_command, request_talk_permission, hfree]
  · simp [dm_step, handle_client_command, request_talk_permission, hfree, hi]
  · simp [dm_step, handle_client_command, request_talk_permission,
      release_talk_permission, hfree, hi]

/-- Concrete instantiation of `media_start_failure_keeps_grant` at the
initial state with a failing video-socket environment. -/
theorem media_start_failure_keeps_grant_witness :
    (dm_step dm_init_state (.clientCmd 0 10 .requestTalk start_env_video_fail)).2 =
      [Reply.grantTalk] ∧
    (dm_step dm_init_state (.clientCmd 0 10 .requestTalk start_env_video_fail)).1.active_talker_index = 0 ∧
    (dm_step (dm_step dm_init_state (.clientCmd 0 10 .requestTalk start_env_video_fail)).1
        (.clientCmd 1 11 .requestTalk start_env_all_ok)).2 = [Reply.denyTalk] ∧
    (dm_step (dm_step dm_init_state (.clientCmd 0 10 .requestTalk start_env_video_fail)).1
        (.clientCmd 0 12 .endTalk start_env_all_ok)).1.active_talker_index = INACTIVE_CLIENT_INDEX :=
  media_start_failure_keeps_grant dm_init_state 0 1 10 11 12
    start_env_video_fail start_env_all_ok start_env_all_ok (by decide) (by decide)

/-- C2: single-talker arbitration.  While the slot is held:
no step whatsoever can emit `GRANT_TALK`; a `REQUEST_TALK` from any client
is answered `DENY_TALK` with the state completely unchanged (in particular
no Media Session call is made); and the recorded talker can only change by
becoming the sentinel again, which happens only on the holder's own
`END_TALK` or disconnect.  Moreover, from any state in which the slot is
free, a `REQUEST_TALK` is granted and records the requester as the single
active talker. -/
theorem talk_slot_exclusive (s : DMState) (e : DMEvent) (i ip : Nat) (env : StartEnv)
    (hheld : s.active_talker_index ≠ INACTIVE_CLIENT_INDEX) :
    Reply.grantTalk ∉ (dm_step s e).2 ∧
    dm_step s (.clientCmd i ip .requestTalk env) = (s, [Reply.denyTalk]) ∧
    ((dm_step s e).1.active_talker_index ≠ s.active_talker_index →
      (dm_step s e).1.active_talker_index = INACTIVE_CLIENT_INDEX ∧
      ((∃ j ip2 env2, e = .clientCmd j ip2 .endTalk env2 ∧ (j : Int) = s.active_talker_index) ∨
       (∃ j, e = .disconnect j ∧ (j : Int) = s.active_talker_index))) ∧
    (∀ s2 : DMState, s2.active_talker_index = INACTIVE_CLIENT_INDEX →
      (dm_step s2 (.clientCmd i ip .requestTalk env)).2 = [Reply.grantTalk] ∧
      (dm_step s2 (.clientCmd i ip .requestTalk env)).1.active_talker_index = i) := by
  refine ⟨?_, ?_, ?_, ?_⟩
  · cases e with
    | clientCmd j ip2 c env2 =>
        cases c with
        | requestTalk =>
            simp [dm_step, handle_client_command, request_talk_permission, hheld]
        | endTalk =>
            by_cases hj : s.active_talker_index = (j : Int)
            · simp [dm_step, handle_client_command, release_talk_permission, hj]
            · simp [dm_step, handle_client_command, release_talk_permission, hj]
        | openDoor => simp [dm_step, handle_client_command]
        | unknown code => simp [dm_step, handle_client_command]
    | disconnect j => simp [dm_step]
  · simp [dm_step, handle_client_command, request_talk_permission, hheld]
  · intro hch
    cases e with
    | clientCmd j ip2 c env2 =>
        cases c with
        | requestTalk =>
            exact absurd
              (by simp [dm_step, handle_client_command, request_talk_permission, hheld]) hch
        | endTalk =>
            by_cases hj : s.active_talker_index = (j : Int)
            · refine ⟨?_, Or.inl ⟨j, ip2, env2, rfl, hj.symm⟩⟩
              simp [dm_step, handle_client_command, release_talk_permission, hj]
            · exact absurd
                (by simp [dm_step, handle_client_command, release_talk_permission, hj]) hch
        | openDoor => exact absurd rfl hch
        | unknown code => exact absurd rfl hch
    | disconnect j =>
        by_cases hj : s.active_talker_index = (j : Int)
        · refine ⟨?_, Or.inr ⟨j, rfl, hj.symm⟩⟩
          simp [dm_step, cleanup_client, release_talk_permission, stop_audio_and_video, hj]
        · exact absurd
            (by simp [dm_step, cleanup_client, release_talk_permission, hj]) hch
  · intro s2 h2
    constructor
    · simp [dm_step, handle_client_command, request_talk_permission, h2]
    · simp [dm_step, handle_client_command, request_talk_permission, h2]

/-- Concrete instantiation of `talk_slot_exclusive`: client 0 holds the
slot, client 1 requests and the holder disconnects. -/
theorem talk_slot_exclusive_witness :
    Reply.grantTalk ∉ (dm_step dm_state_client0 (.disconnect 0)).2 ∧
    dm_step dm_state_client0 (.clientCmd 1 11 .requestTalk start_env_all_ok) =
      (dm_state_client0, [Reply.denyTalk]) ∧
    ((dm_step dm_state_client0 (.disconnect 0)).1.active_talker_index ≠
        dm_state_client0.active_talker_index →
      (dm_step dm_state_client0 (.disconnect 0)).1.active_talker_index = INACTIVE_CLIENT_INDEX ∧
      ((∃ j ip2 env2, (DMEvent.disconnect 0) = .clientCmd j ip2 .endTalk env2 ∧
          (j : Int) = dm_state_client0.active_talker_index) ∨
       (∃ j, (DMEvent.disconnect 0) = .disconnect j ∧
          (j : Int) = dm_state_client0.active_talker_index))) ∧
    (∀ s2 : DMState, s2.active_talker_index = INACTIVE_CLIENT_INDEX →
      (dm_step s2 (.clientCmd 1 11 .requestTalk start_env_all_ok)).2 = [Reply.grantTalk] ∧
      (dm_step s2 (.clientCmd 1 11 .requestTalk start_env_all_ok)).1.active_talker_index = 1) :=
  talk_slot_exclusive dm_state_client0 (.disconnect 0) 1 11 start_env_all_ok (by decide)

/-- C9: an `END_TALK` from a client that does not hold the talk slot is
answered `TALK_DID_NOT_END` and the whole coordinator state — arbitration
index, audio-client index and media-session state — is returned unchanged. -/
theorem end_talk_from_nonholder_no_change (s : DMState) (i ip : Nat) (env : StartEnv)
    (h : s.active_talker_index ≠ (i : Int)) :
    dm_step s (.clientCmd i ip .endTalk env) = (s, [Reply.talkDidNotEnd]) := by
  simp [dm_step, handle_client_command, release_talk_permission, h]

/-- Concrete instantiation of `end_talk_from_nonholder_no_change`: client 1
sends `END_TALK` while client 0 holds the slot. -/
theorem end_talk_from_nonholder_no_change_witness :
    dm_step dm_state_client0 (.clientCmd 1 11 .endTalk start_env_all_ok) =
      (dm_state_client0, [Reply.talkDidNotEnd]) :=
  end_talk_from_nonholder_no_change dm_state_client0 1 11 start_env_all_ok (by decide)

/-! ## UDP stream transport element (`src/adf_components/udp_stream.c`) -/

/-- `portMAX_DELAY`, the FreeRTOS unlimited-wait tick value. -/
def portMAX_DELAY : Nat := 4294967295

/-- The `errno` cases distinguished by `_udp_stream_read`. -/
inductive RecvErrno
  | eagain
  | ewouldblock
  | other
deriving DecidableEq, Repr

/-- Result of the `recvfrom` call: byte count, or failure with an errno. -/
inductive RecvOutcome
  | received (n : Nat)
  | failed (e : RecvErrno)
deriving DecidableEq, Repr

/-- Return value of `_udp_stream_read`: a byte count, the distinguished
`AEL_IO_TIMEOUT`, the error `AEL_IO_FAIL`, or a negative `len` passed
through. -/
inductive ReadResult
  | bytes (n : Nat)
  | ioTimeout
  | ioFail
  | negLen (l : Int)
deriving DecidableEq, Repr

/-- The receive-timeout `(tv_sec, tv_usec)` installed with `SO_RCVTIMEO` by
`_udp_stream_read` (`src/adf_components/udp_stream.c`, lines 130-139): a
`portMAX_DELAY` wait is converted to a capped 100 ms poll; any other tick
count is converted to milliseconds using the tick period. -/
def udp_read_timeout (ticks : Nat) (tick_period_ms : Nat) : Nat × Nat :=
  if ticks = portMAX_DELAY then (0, 100000)
  else (ticks * tick_period_ms / 1000, ticks * tick_period_ms % 1000 * 1000)

/-- `_udp_stream_read` (`src/adf_components/udp_stream.c`, lines 115-160):
fail when the stream is not open; pass a negative `len` through; otherwise
the `recvfrom` result is returned as a byte count, or mapped to
`AEL_IO_TIMEOUT` on `EAGAIN`/`EWOULDBLOCK`, or to `AEL_IO_FAIL` (with an
input-error status report) on any other errno. -/
def udp_stream_read (stream_open : Bool) (len : Int) (outcome : RecvOutcome) : ReadResult :=
  if ¬ stream_open then .ioFail
  else if len < 0 then .negLen len
  else
    match outcome with
    | .received n => .bytes n
    | .failed .eagain => .ioTimeout
    | .failed .ewouldblock => .ioTimeout
    | .failed .other => .ioFail

/-- C7: a read with the unlimited-wait tick value installs a capped
100 ms socket timeout; within the window, arriving data is returned as the
received byte count, the no-data case yields the distinguished
`AEL_IO_TIMEOUT` (different from the failure result), and `AEL_IO_FAIL` is
returned exactly on a socket error. -/
theorem udp_read_unlimited_wait_contract (len : Int) (n : Nat) (tick_period_ms : Nat)
    (hlen : 0 ≤ len) :
    udp_read_timeout portMAX_DELAY tick_period_ms = (0, 100000) ∧
    udp_stream_read true len (.received n) = .bytes n ∧
    (∀ o : RecvOutcome, udp_stream_read true len o = .ioTimeout ↔
      (o = .failed .eagain ∨ o = .failed .ewouldblock)) ∧
    (∀ o : RecvOutcome, udp_stream_read true len o = .ioFail ↔ o = .failed .other) ∧
    ReadResult.ioTimeout ≠ ReadResult.ioFail := by
  have hnl : ¬ len < 0 := not_lt.mpr hlen
  refine ⟨by simp [udp_read_timeout], by simp [udp_stream_read, hnl], ?_, ?_, by simp⟩
  · intro o
    cases o with
    | received m => simp [udp_stream_read, hnl]
    | failed e => cases e <;> simp [udp_stream_read, hnl]
  · intro o
    cases o with
    | received m => simp [udp_stream_read, hnl]
    | failed e => cases e <;> simp [udp_stream_read, hnl]

/-- Concrete instantiation of `udp_read_unlimited_wait_contract` with a
zero-length buffer bound and a 7-byte datagram. -/
theorem udp_read_unlimited_wait_contract_witness :
    udp_read_timeout portMAX_DELAY 10 = (0, 100000) ∧
    udp_stream_read true 0 (.received 7) = .bytes 7 ∧
    (∀ o : RecvOutcome, udp_stream_read true 0 o = .ioTimeout ↔
      (o = .failed .eagain ∨ o = .failed .ewouldblock)) ∧
    (∀ o : RecvOutcome, udp_stream_read true 0 o = .ioFail ↔ o = .failed .other) ∧
    ReadResult.ioTimeout ≠ ReadResult.ioFail :=
  udp_read_unlimited_wait_contract 0 7 10 (by decide)

/-- The `errno` cases distinguished by the modelled senders. -/
inductive SendErrno
  | enomem
  | other
deriving DecidableEq, Repr

/-- Result of a `sendmsg` call. -/
inductive SendOutcome
  | sentBytes (n : Nat)
  | failedErrno (e : SendErrno)
deriving DecidableEq, Repr

/-- Return value of `_udp_stream_write`. -/
inductive WriteResult
  | ioOk
  | ioFail
  | value (l : Int)
deriving DecidableEq, Repr

/-- `_udp_stream_write` (`src/adf_components/udp_stream.c`, lines 162-227),
returning the write result together with the backoff delay (in ms) the call
performs: fail when not open; negative `len` passed through; zero `len`
acknowledged with `AEL_IO_OK`; oversized `len` truncated to the configured
buffer length; then the packet is sent and on `ENOMEM` the packet is
discarded while the (truncated) length is returned as success — with **no**
delay of any kind — and on any other send error `AEL_IO_FAIL` is returned. -/
def udp_stream_write (stream_open : Bool) (len : Int) (buffer_len : Int)
    (outcome : SendOutcome) : WriteResult × Nat :=
  if ¬ stream_open then (.ioFail, 0)
  else if len < 0 then (.value len, 0)
  else if len = 0 then (.ioOk, 0)
  else
    let len := if len > buffer_len then buffer_len else len
    match outcome with
    | .sentBytes n => (.value n, 0)
    | .failedErrno .enomem => (.value len, 0)
    | .failedErrno .other => (.ioFail, 0)

/-- One fragment-send step of `_video_manager_send_frame`
(`src/unnamed/part_002`, lines 335-350), returning the per-step result and
the delay performed: a successful send is followed by a 10 ms yield; a send
failing with `ENOMEM` backs off 50 ms and then aborts the whole frame with
`ESP_FAIL`; any other send error aborts the frame with no delay. -/
def video_send_step (outcome : SendOutcome) : EspErr × Nat :=
  match outcome with
  | .sentBytes _ => (.ok, 10)
  | .failedErrno .enomem => (.fail, 50)
  | .failedErrno .other => (.fail, 0)

/-- C8 counterexample: on an `ENOMEM` send failure the audio media writer
`_udp_stream_write` does discard the packet and report the requested length
as success, but it applies **no** backoff (its delay is 0 ms); the only
ENOMEM backoff in the code base (50 ms) is in the video frame sender, which
reports `ESP_FAIL` for the frame instead of success. -/
theorem write_enomem_no_backoff_counterexample :
    udp_stream_write true 100 324 (.failedErrno .enomem) = (.value 100, 0) ∧
    video_send_step (.failedErrno .enomem) = (.fail, 50) := by
  decide

/-- C8 amended: on a transient `ENOMEM`, the audio transport writer discards
the packet and reports the (possibly truncated) requested length as success
to its caller, immediately and with no backoff; the video frame sender is
the component that applies the short 50 ms backoff on `ENOMEM`, but it
aborts the current frame with `ESP_FAIL` rather than reporting success, and
its ordinary inter-fragment yield is 10 ms. -/
theorem write_enomem_discard_reports_success (len buffer_len : Int)
    (hpos : 0 < len) (hle : len ≤ buffer_len) :
    udp_stream_write true len buffer_len (.failedErrno .enomem) = (.value len, 0) ∧
    video_send_step (.failedErrno .enomem) = (.fail, 50) ∧
    video_send_step (.sentBytes 0) = (.ok, 10) := by
  have h1 : ¬ len < 0 := by omega
  have h2 : len ≠ 0 := by omega
  have h3 : ¬ len > buffer_len := not_lt.mpr hle
  refine ⟨?_, rfl, rfl⟩
  simp [udp_stream_write, h1, h2, h3]

/-- Concrete instantiation of `write_enomem_discard_reports_success` at a
100-byte packet with the configured 324-byte buffer limit. -/
theorem write_enomem_discard_reports_success_witness :
    udp_stream_write true 100 324 (.failedErrno .enomem) = (.value 100, 0) ∧
    video_send_step (.failedErrno .enomem) = (.fail, 50) ∧
    video_send_step (.sentBytes 0) = (.ok, 10) :=
  write_enomem_discard_reports_success 100 324 (by decide) (by decide)

/-! ## Device manager initialization
(`src/esp32_firmware/main/control/device_manager.h`, lines 170-196) -/

/-- One slot of the static `clients` table (`tcp_client_t`). -/
structure TcpClient where
  socket : Int
  ip_address : Nat
  is_connected : Bool
  has_task : Bool
deriving DecidableEq, Repr

/-- `#define MAX_CLIENTS 5` -/
def MAX_CLIENTS : Nat := 5

/-- A zeroed client slot. -/
def empty_client : TcpClient :=
  { socket := 0, ip_address := 0, is_connected := false, has_task := false }

/-- The process-wide globals touched by `device_manager_init`: the two
mutexes (modelled by whether they exist), the client table, the arbitration
index, the global audio state and the manager task. -/
structure DevMgrGlobals where
  clients_mutex : Bool
  talker_mutex : Bool
  clients : List TcpClient
  active_talker_index : Int
  audio : AudioPipelinesInfo
  audio_active_client : Int
  manager_task : Bool
deriving DecidableEq, Repr

/-- The globals at process start: no mutexes, zeroed statics, and the
static initializer `active_talker_index = -1`. -/
def dev_mgr_fresh : DevMgrGlobals :=
  { clients_mutex := false
    talker_mutex := false
    clients := List.replicate MAX_CLIENTS empty_client
    active_talker_index := INACTIVE_CLIENT_INDEX
    audio := audio_info_zero
    audio_active_client := INACTIVE_CLIENT_INDEX
    manager_task := false }

/-- `device_manager_init` (`device_manager.h`, lines 170-196): if either
mutex already exists, log and return `ESP_FAIL` touching nothing; otherwise
create both mutexes (`mutexA`/`mutexB` are the allocation outcomes, failure
of either yields `ESP_FAIL`), zero the client table, zero the global audio
state with `active_client_index = INACTIVE_CLIENT_INDEX`, spawn the manager
task and return `ESP_OK`. -/
def device_manager_init (mutexA mutexB : Bool) (g : DevMgrGlobals) :
    DevMgrGlobals × EspErr :=
  if g.clients_mutex ∨ g.talker_mutex then (g, .fail)
  else
    let g := { g with clients_mutex := mutexA, talker_mutex := mutexB }
    if ¬ mutexA ∨ ¬ mutexB then (g, .fail)
    else
      ({ g with clients := List.replicate MAX_CLIENTS empty_client
                audio := audio_info_zero
                audio_active_client := INACTIVE_CLIENT_INDEX
                manager_task := true }, .ok)

/-- C10: once the mutexes exist, `device_manager_init` fails: a second call
returns `ESP_FAIL` and leaves every global — client table, arbitration
state, audio state, mutexes — exactly as it was; and from fresh globals a
first successful call followed by a second call shows precisely this
run-once behaviour. -/
theorem device_manager_init_at_most_once (a b : Bool) (g : DevMgrGlobals)
    (h1 : g.clients_mutex = true) :
    device_manager_init a b g = (g, .fail) ∧
    (∀ g0 : DevMgrGlobals, g0.clients_mutex = false → g0.talker_mutex = false →
      (device_manager_init true true g0).2 = .ok ∧
      device_manager_init a b (device_manager_init true true g0).1 =
        ((device_manager_init true true g0).1, .fail)) := by
  constructor
  · simp [device_manager_init, h1]
  · intro g0 hg0 hg0'
    constructor
    · simp [device_manager_init, hg0, hg0']
    · simp [device_manager_init, hg0, hg0']

/-- Concrete instantiation of `device_manager_init_at_most_once`: the state
produced by a successful first initialization rejects a second one. -/
theorem device_manager_init_at_most_once_witness :
    device_manager_init true true (device_manager_init true true dev_mgr_fresh).1 =
      ((device_manager_init true true dev_mgr_fresh).1, .fail) ∧
    (∀ g0 : DevMgrGlobals, g0.clients_mutex = false → g0.talker_mutex = false →
      (device_manager_init true true g0).2 = .ok ∧
      device_manager_init true true (device_manager_init true true g0).1 =
        ((device_manager_init true true g0).1, .fail)) :=
  device_manager_init_at_most_once true true
    (device_manager_init true true dev_mgr_fresh).1 (by decide)

end TelRem
